import Mathlib

/-!
# Verification of the HackSmart insight aggregation and caching core

Shallow embedding of the insight pipeline of the HackSmart backend:
the score normalizers and escalation write of the call-processing step,
the narrative merge engine, and the agent-level and city-level
refresh operations with their cache decisions, zero-record handling and
rollback behaviour.

Modelling conventions:
* Python floats are modelled as rationals; the thresholds involved
  (0.25, 0.75, 0.375, 0.875, 0.5) are exactly representable in binary
  floating point, so the comparison behaviour agrees.
* Python datetimes are modelled by a record carrying an absolute time in
  minutes (for subtraction and comparison), the calendar month and year
  (read independently by the coaching-focus gate), and the absolute time
  of that day local midnight (for the today window).
* Nullable text columns and dictionary lookups are Option String;
  Python truthiness of such a value is false exactly on None and on the
  empty string.
* The external text-generation service is an oracle indexed by the
  number of calls issued so far; a None response models a failed call
  (missing API key, transport failure, or missing choices), which the
  source helper converts to None without raising. Prompt contents are
  not modelled: no verified property depends on them.
* The database session is modelled by explicit state passing: each
  refresh returns the durable row(s) after the invocation. An exception
  raised inside a refresh body is caught by the top-level handler which
  rolls the session back, so an error outcome carries the input row
  unchanged. Failure injection points (data fetch, generation phase,
  commit) model the places where the session can raise.
-/

/-- Model of a Python datetime: absolute time in minutes since an epoch,
calendar month and year, and the absolute time of local midnight of its
day (datetime.replace with zeroed time fields). -/
structure PyDateTime where
  t : Int
  month : Nat
  year : Nat
  dayStart : Int
deriving DecidableEq

/-- One hour, in minutes (timedelta with hours equal to one). -/
def oneHour : Int := 60

/-- Ten minutes, in minutes. -/
def tenMinutes : Int := 10

/-- Thirty days, in minutes (timedelta with days equal to thirty). -/
def thirtyDays : Int := 43200

/-- Python truthiness of an optional string: None and the empty string
are falsy, every other string is truthy. -/
def truthy : Option String → Bool
  | none => false
  | some s => !(s == "")

/-- Python or-chain on two optional strings: the first operand when it
is truthy, otherwise the second operand. -/
def pyOrS (a b : Option String) : Option String :=
  if truthy a then a else b

/-! ## Score normalizers (call_processing_service.py) -/

/-- Sentiment normalizer from process_call_for_ai_evaluation: converts a
continuous score to a value in the discrete set with members zero, one
half and one, via fixed thresholds. -/
def normalize_sentiment_score (score : ℚ) : ℚ :=
  if score < 1/4 then 0
  else if score < 3/4 then 1/2
  else 1

/-- Resolution normalizer from process_call_for_ai_evaluation: converts
a continuous score to a value in the discrete set with members zero,
three quarters and one, via fixed thresholds. -/
def normalize_resolution_score (score : ℚ) : ℚ :=
  if score < 3/8 then 0
  else if score < 7/8 then 3/4
  else 1

/-! ## Escalation write (call_processing_service.py, lines 148-156) -/

/-- The escalation fields written to a CallInsight row by the
call-processing step: given the raw escalation score from the analysis
response (None when the key is absent, defaulted to zero) and the
why_flagged and business_insight entries of the insights object, returns
the persisted pair of escalation_risk and why_flagged. -/
def escalationWrite (escScore : Option ℚ)
    (whyFlagged businessInsight : Option String) : Bool × Option String :=
  if 1/2 < escScore.getD 0 then
    (true, pyOrS whyFlagged (pyOrS businessInsight
      (some "High escalation risk detected")))
  else
    (false, none)

/-! ## Narrative merge engine (insights.py, update_overall_insight) -/

/-- Strip a separator from the front of a character list: the remainder
when the list starts with the separator, None otherwise. -/
def dropSep : List Char → List Char → Option (List Char)
  | rest, [] => some rest
  | [], _ :: _ => none
  | c :: cs, d :: ds => if c == d then dropSep cs ds else none

/-- Prepend a character to the first piece of a split result. -/
def consFirst (c : Char) : List (List Char) → List (List Char)
  | [] => [[c]]
  | p :: ps => (c :: p) :: ps

/-- Fuel-driven splitter on character lists: greedy leftmost,
non-overlapping occurrences of a non-empty separator, as Python
str.split with an explicit separator behaves. -/
def splitFuel (sep : List Char) : Nat → List Char → List (List Char)
  | 0, s => [s]
  | fuel + 1, s =>
    match dropSep s sep with
    | some rest => [] :: splitFuel sep fuel rest
    | none =>
      match s with
      | [] => [[]]
      | c :: cs => consFirst c (splitFuel sep fuel cs)

/-- Python str.split with an explicit non-empty separator: the pieces of
the string between non-overlapping, leftmost occurrences of the
separator. Always returns at least one piece. -/
def pySplit (s sep : String) : List String :=
  if sep.toList.isEmpty then [s]
  else (splitFuel sep.toList s.toList.length s.toList).map
    (fun l => String.mk l)

/-- Whether a marker string occurs in a response, phrased through the
split used by the source parser: splitting on the marker yields at least
two pieces exactly when the marker occurs. -/
def containsMarker (r marker : String) : Bool :=
  2 ≤ (pySplit r marker).length

/-- The piece after the first occurrence of a separator, as produced by
indexing the Python split at one; None models the IndexError raised when
the separator does not occur. -/
def pySplitAfter (s sep : String) : Option String :=
  match pySplit s sep with
  | _ :: second :: _ => some second
  | _ => none

/-- The piece before the first occurrence of a separator (indexing the
Python split at zero, which never fails). -/
def pySplitBefore (s sep : String) : String :=
  match pySplit s sep with
  | first :: _ => first
  | [] => ""

/-- The previous overall narrative after the falsy-replacement at the
top of update_overall_insight: a None or empty previous overall is
replaced by the fixed placeholder. -/
def effectiveOverall (currentOverall : Option String) : String :=
  match currentOverall with
  | none => "No previous history available."
  | some s => if s == "" then "No previous history available." else s

/-- The parsing step of update_overall_insight on a non-None response:
extract the section between the overall markers and the section between
the change markers; if either opening marker is absent the source raises
IndexError, caught by the handler which returns the full raw response
together with a fixed failure string. -/
def parseMergeResponse (r : String) : String × String :=
  match pySplitAfter r "[OVERALL_START]" with
  | none => (r, "Error parsing change summary.")
  | some afterOverall =>
    match pySplitAfter r "[CHANGE_START]" with
    | none => (r, "Error parsing change summary.")
    | some afterChange =>
      ((pySplitBefore afterOverall "[OVERALL_END]").trim,
       (pySplitBefore afterChange "[CHANGE_END]").trim)

/-- update_overall_insight from insights.py, with the external call
abstracted as its outcome: given the response of the single
text-generation call (None when the call failed entirely) and the
current overall narrative, returns the updated overall narrative and the
change summary. Never raises: the source's falsy check on the response
takes the failure return both when the call failed (None) and when the
stripped response is the empty string, yielding the falsy-substituted
previous overall with a fixed sentinel; a parse failure on a non-empty
response returns the raw response with a fixed failure string. -/
def update_overall_insight (response : Option String)
    (currentOverall : Option String) : String × String :=
  match response with
  | none => (effectiveOverall currentOverall, "Could not generate update.")
  | some r =>
    if r == "" then
      (effectiveOverall currentOverall, "Could not generate update.")
    else parseMergeResponse r

/-! ## Durable rows, call rows, and the refresh environment -/

/-- A call row as consumed by the insight generators: its timestamp and
the values the pipeline reads off its one-to-one CallInsight row when
building the per-call data dictionaries (the source substitutes the
fixed text for not-applicable when the insight row is absent; a None
here models a null column value). -/
structure CallRow where
  call_timestamp : PyDateTime
  business_insight : Option String
  coaching_insight : Option String
  human_remarks : Option String
deriving DecidableEq

/-- The agent columns touched by update_single_agent_insights. -/
structure AgentRow where
  latest_month_insight : Option String
  overall_insight_text : Option String
  latest_change_summary : Option String
  last_insight_generated_at : Option PyDateTime
  last_updated_at : Option PyDateTime
deriving DecidableEq

/-- The CityInsight columns touched by update_single_city_insights. -/
structure CityRow where
  daily_ops_insight : Option String
  latest_month_insight : Option String
  overall_city_insight : Option String
  coaching_focus_for_city : Option String
  last_insight_generated_at : Option PyDateTime
  last_updated_at : Option PyDateTime
deriving DecidableEq

/-- Effect environment of one refresh invocation: the external
text-generation oracle (indexed by the number of generation calls issued
so far inside the invocation; a None response is a failed call, which
the source helper returns without raising) and the failure injection
points where the database session can raise an exception — the windowed
data fetch, the narrative-generation phase (any unexpected exception
between fetch and commit), and the final commit. -/
structure Env where
  llm : Nat → Option String
  fetchOk : Bool
  genOk : Bool
  commitOk : Bool

/-- A healthy session environment: no database failure injected. -/
def pureEnv (llm : Nat → Option String) : Env :=
  ⟨llm, true, true, true⟩

/-- Outcome of an agent refresh: the status of the returned envelope,
whether an exception was raised and caught inside the body, the durable
agent row after commit or rollback, the number of external
text-generation calls issued, and the narrative fields of the returned
data envelope. -/
structure AgentOutcome where
  ok : Bool
  raised : Bool
  agent : AgentRow
  llmCalls : Nat
  dataMonth : Option String
  dataOverall : Option String
  dataChange : Option String
deriving DecidableEq

/-- Outcome of a city refresh: as for agents, with the durable
CityInsight row optional because it is created lazily on first use. -/
structure CityOutcome where
  ok : Bool
  raised : Bool
  row : Option CityRow
  llmCalls : Nat
  dataDaily : Option String
  dataMonth : Option String
  dataOverall : Option String
  dataCoaching : Option String
deriving DecidableEq

/-! ## Agent refresh (insights.py, update_single_agent_insights) -/

/-- Cache gate of update_single_agent_insights: the cached values are
served when the staleness clock exists and is under one hour old and
the stored latest month insight is truthy. Recent activity is not
consulted in the agent path. -/
def agentCacheServe (now : PyDateTime) (agent : AgentRow) : Bool :=
  match agent.last_insight_generated_at with
  | some ts =>
    decide (now.t - ts.t < oneHour) && truthy agent.latest_month_insight
  | none => false

/-- The rolling 30-day window of a refresh fetch: calls whose timestamp
is at or after thirty days before the refresh time. -/
def monthWindow (now : PyDateTime) (calls : List CallRow) : List CallRow :=
  calls.filter (fun c => decide (now.t - thirtyDays ≤ c.call_timestamp.t))

/-- generate_agent_monthly_insight with the external call abstracted:
empty call data returns the fixed no-calls text without consuming the
oracle, otherwise one oracle call is consumed and its response (None on
failure) is the narrative. Returns the narrative and the updated
call count. -/
def generate_agent_monthly_insight (llm : Nat → Option String) (k : Nat)
    (callsData : List CallRow) : Option String × Nat :=
  if callsData.isEmpty then (some "No calls recorded this month.", k)
  else (llm k, k + 1)

/-- update_single_agent_insights from insights.py: the one-hour cache
gate, the 30-day fetch, the zero-record placeholder branch, the monthly
generation, the overall merge, and the commit, with the failure
injection points of the environment. The top-level exception handler of
the source rolls the session back, so every error outcome carries the
input row unchanged. -/
def update_single_agent_insights (now : PyDateTime) (agent : AgentRow)
    (calls : List CallRow) (env : Env) : AgentOutcome :=
  if agentCacheServe now agent then
    ⟨true, false, agent, 0, agent.latest_month_insight,
     agent.overall_insight_text, agent.latest_change_summary⟩
  else if !env.fetchOk then
    ⟨false, true, agent, 0, none, none, none⟩
  else if (monthWindow now calls).isEmpty then
    if !env.commitOk then
      ⟨false, true, agent, 0, none, none, none⟩
    else
      ⟨true, false,
       { agent with
          latest_month_insight := some "No calls recorded for this month.",
          latest_change_summary := some "No activity to analyze." },
       0, some "No calls recorded for this month.",
       agent.overall_insight_text, none⟩
  else if !env.genOk then
    ⟨false, true, agent, 0, none, none, none⟩
  else
    let gen1 := generate_agent_monthly_insight env.llm 0 (monthWindow now calls)
    let merged := update_overall_insight (env.llm gen1.2) agent.overall_insight_text
    let agentNew : AgentRow :=
      { agent with
          latest_month_insight := gen1.1,
          overall_insight_text := some merged.1,
          latest_change_summary := some merged.2,
          last_insight_generated_at := some now,
          last_updated_at := some now }
    if !env.commitOk then
      ⟨false, true, agent, gen1.2 + 1, none, none, none⟩
    else
      ⟨true, false, agentNew, gen1.2 + 1, gen1.1, some merged.1, some merged.2⟩

/-- Agent refresh on a healthy session. -/
def refreshAgent (now : PyDateTime) (agent : AgentRow)
    (calls : List CallRow) (llm : Nat → Option String) : AgentOutcome :=
  update_single_agent_insights now agent calls (pureEnv llm)

/-! ## City refresh (citylevel_insights.py, update_single_city_insights) -/

/-- Fresh-cache test of the city refresh: the staleness clock exists and
is under one hour old. -/
def cityFresh (now : PyDateTime) (r : CityRow) : Bool :=
  match r.last_insight_generated_at with
  | some ts => decide (now.t - ts.t < oneHour)
  | none => false

/-- Whether any call of the city arrived within the last ten minutes. -/
def recentCallsExist (now : PyDateTime) (calls : List CallRow) : Bool :=
  calls.any (fun c => decide (now.t - tenMinutes ≤ c.call_timestamp.t))

/-- The today window: calls of the 30-day fetch whose timestamp is at or
after local midnight of the refresh time (the source strips timezone
information before this comparison; timestamps are modelled naive). -/
def todayWindow (now : PyDateTime) (calls : List CallRow) : List CallRow :=
  (monthWindow now calls).filter
    (fun c => decide (now.dayStart ≤ c.call_timestamp.t))

/-- Coaching-focus gate of the city refresh: regenerate unless a truthy
coaching focus is stored and the staleness clock falls in the current
calendar month and year. -/
def shouldGenerateCoaching (now : PyDateTime) (r : CityRow) : Bool :=
  !(truthy r.coaching_focus_for_city &&
    (match r.last_insight_generated_at with
     | some ts => decide (ts.month = now.month) && decide (ts.year = now.year)
     | none => false))

/-- generate_city_daily_ops_insight with the external call abstracted:
empty today data returns the fixed no-calls text without consuming the
oracle, otherwise one oracle call is consumed. -/
def generate_city_daily_ops_insight (llm : Nat → Option String) (k : Nat)
    (todayData : List CallRow) : Option String × Nat :=
  if todayData.isEmpty then
    (some "No calls recorded today for operational analysis.", k)
  else (llm k, k + 1)

/-- generate_city_monthly_insight with the external call abstracted:
empty month data returns the fixed no-calls text without consuming the
oracle, otherwise one oracle call is consumed. -/
def generate_city_monthly_insight (llm : Nat → Option String) (k : Nat)
    (monthData : List CallRow) : Option String × Nat :=
  if monthData.isEmpty then
    (some "No calls recorded in the last 30 days.", k)
  else (llm k, k + 1)

/-- update_city_overall_insight with the external call abstracted: it
has no zero-data guard, always issues exactly one generation call, and
returns its raw response (None on failure) as the new overall
narrative. -/
def update_city_overall_insight (llm : Nat → Option String) (k : Nat) :
    Option String × Nat :=
  (llm k, k + 1)

/-- generate_city_coaching_focus with the external call abstracted:
empty month data, or month data whose truthy non-not-applicable coaching
extracts are empty, returns a fixed text without consuming the oracle;
otherwise one oracle call is consumed. -/
def generate_city_coaching_focus (llm : Nat → Option String) (k : Nat)
    (monthData : List CallRow) : Option String × Nat :=
  if monthData.isEmpty then
    (some "No sufficient data for coaching analysis.", k)
  else if (monthData.filter (fun c =>
      truthy c.coaching_insight && !(c.coaching_insight == some "N/A"))).isEmpty then
    (some "No coaching insights available to analyze.", k)
  else (llm k, k + 1)

/-- The regeneration body of update_single_city_insights, entered when
the cache gate does not serve or when the row was created on first use:
the four narrative slots are produced in source order (daily ops,
monthly, overall merge, coaching focus gated by its monthly decision)
and the row is committed with a refreshed staleness clock. On an
injected failure, the top-level handler rolls the session back — also
discarding the flushed first-use row — so error outcomes carry the
original durable row. -/
def cityRegenerate (now : PyDateTime) (orig : Option CityRow) (r : CityRow)
    (calls : List CallRow) (env : Env) : CityOutcome :=
  if !env.fetchOk then
    ⟨false, true, orig, 0, none, none, none, none⟩
  else if !env.genOk then
    ⟨false, true, orig, 0, none, none, none, none⟩
  else
    let g1 := generate_city_daily_ops_insight env.llm 0 (todayWindow now calls)
    let g2 := generate_city_monthly_insight env.llm g1.2 (monthWindow now calls)
    let g3 := update_city_overall_insight env.llm g2.2
    let g4 := if shouldGenerateCoaching now r then
                generate_city_coaching_focus env.llm g3.2 (monthWindow now calls)
              else (r.coaching_focus_for_city, g3.2)
    let rNew : CityRow := ⟨g1.1, g2.1, g3.1, g4.1, some now, some now⟩
    if !env.commitOk then
      ⟨false, true, orig, g4.2, none, none, none, none⟩
    else
      ⟨true, false, some rNew, g4.2, g1.1, g2.1, g3.1, g4.1⟩

/-- update_single_city_insights from citylevel_insights.py: lazily
creates the insight row on first use (skipping the cache gate, as the
source does for a freshly flushed row whose staleness clock is null),
serves the cache when the row is under one hour old and no call arrived
in the last ten minutes, and otherwise regenerates. The source holds two
copies of the cache block evaluating the same condition on the same
data, so the decision is modelled once. -/
def update_single_city_insights (now : PyDateTime) (row? : Option CityRow)
    (calls : List CallRow) (env : Env) : CityOutcome :=
  match row? with
  | none =>
    cityRegenerate now none ⟨none, none, none, none, none, none⟩ calls env
  | some r =>
    if cityFresh now r && !recentCallsExist now calls then
      ⟨true, false, some r, 0, r.daily_ops_insight, r.latest_month_insight,
       r.overall_city_insight, r.coaching_focus_for_city⟩
    else
      cityRegenerate now (some r) r calls env

/-- City refresh on a healthy session. -/
def refreshCity (now : PyDateTime) (row? : Option CityRow)
    (calls : List CallRow) (llm : Nat → Option String) : CityOutcome :=
  update_single_city_insights now row? calls (pureEnv llm)

/-! ## Claim C8 -/

/-- C8: the score normalizers are pure total functions over the
rationals with the fixed thresholds: sentiment scores below one quarter
map to zero, scores in the half-open band from one quarter to three
quarters map to one half, and scores at or above three quarters map to
one; resolution scores below three eighths map to zero, scores in the
half-open band from three eighths to seven eighths map to three
quarters, and scores at or above seven eighths map to one. The boundary
values map to the upper bucket. -/
theorem normalizers_bucket_correct (x y : ℚ) :
    (x < 1/4 → normalize_sentiment_score x = 0) ∧
    (1/4 ≤ x → x < 3/4 → normalize_sentiment_score x = 1/2) ∧
    (3/4 ≤ x → normalize_sentiment_score x = 1) ∧
    (y < 3/8 → normalize_resolution_score y = 0) ∧
    (3/8 ≤ y → y < 7/8 → normalize_resolution_score y = 3/4) ∧
    (7/8 ≤ y → normalize_resolution_score y = 1) := by
  unfold normalize_sentiment_score normalize_resolution_score
  refine ⟨?_, ?_, ?_, ?_, ?_, ?_⟩ <;> intros <;>
    repeat first
    | rfl
    | (rw [if_pos (by linarith)])
    | (rw [if_neg (by linarith)])

/-- Witness for C8: the boundary inputs one quarter and seven eighths
land in their upper buckets. -/
theorem normalizers_bucket_correct_witness :
    normalize_sentiment_score (1/4) = 1/2 ∧
    normalize_resolution_score (7/8) = 1 :=
  ⟨(normalizers_bucket_correct (1/4) (7/8)).2.1 (by norm_num) (by norm_num),
   (normalizers_bucket_correct (1/4) (7/8)).2.2.2.2.2 (by norm_num)⟩

/-! ## Claim C1 -/

/-- A Python or-chain whose right operand is non-null produces a
non-null value. -/
theorem pyOrS_ne_none (a b : Option String) (hb : b ≠ none) :
    pyOrS a b ≠ none := by
  unfold pyOrS
  split
  · next h =>
    cases a with
    | none => simp [truthy] at h
    | some s => simp
  · exact hb

/-- C1: for every persisted CallInsight written by the call-processing
step, escalation_risk is true exactly when the persisted why_flagged is
non-null: a raw score leading to escalation_risk true always receives a
non-null why_flagged (the or-chain ends in a non-empty literal), and
escalation_risk false always stores a null why_flagged. -/
theorem escalation_iff_why_flagged (escScore : Option ℚ)
    (whyFlagged businessInsight : Option String) :
    (escalationWrite escScore whyFlagged businessInsight).1 = true ↔
    (escalationWrite escScore whyFlagged businessInsight).2 ≠ none := by
  unfold escalationWrite
  split
  · constructor
    · intro _
      exact pyOrS_ne_none _ _ (pyOrS_ne_none _ _ (by simp))
    · intro _
      rfl
  · simp

/-! ## Claim C4 -/

/-- Counterexample for C4 as stated: when the previous overall narrative
is the empty string and the external call fails entirely, the merge does
not return the previous overall unchanged but the fixed placeholder
text instead. -/
theorem merge_total_failure_not_unchanged_on_empty :
    update_overall_insight none (some "") =
      ("No previous history available.", "Could not generate update.") ∧
    "No previous history available." ≠ "" := by
  constructor
  · rfl
  · decide

/-- C4 (amended): the merge operation never raises; when the external
call fails entirely or returns a falsy (empty) string it returns the
previous overall narrative unchanged whenever that narrative is
non-empty (an empty or null previous overall is replaced by the fixed
placeholder) together with the fixed failure sentinel as change summary;
when the response is a non-empty string lacking the opening overall
delimiter marker it returns the full raw response as the updated overall
with the fixed parse-failure string as change summary. -/
theorem merge_failure_fallbacks :
    (∀ (response : Option String) (s : String),
      truthy response = false → s ≠ "" →
      update_overall_insight response (some s) =
        (s, "Could not generate update.")) ∧
    (∀ r : String, ∀ cur : Option String, r ≠ "" →
      containsMarker r "[OVERALL_START]" = false →
      update_overall_insight (some r) cur =
        (r, "Error parsing change summary.")) := by
  constructor
  · intro response s hresp hs
    cases response with
    | none =>
      unfold update_overall_insight effectiveOverall
      simp [hs]
    | some x =>
      have hx : x = "" := by
        unfold truthy at hresp
        simpa using hresp
      subst hx
      unfold update_overall_insight effectiveOverall
      simp [hs]
  · intro r cur hr hm
    have hbe : (r == "") = false := by
      cases hbeq : r == "" with
      | false => rfl
      | true => exact absurd (eq_of_beq hbeq) hr
    unfold update_overall_insight parseMergeResponse pySplitAfter
    dsimp only
    rw [hbe]
    unfold containsMarker at hm
    simp only [decide_eq_false_iff_not, not_le] at hm
    cases h : pySplit r "[OVERALL_START]" with
    | nil => rfl
    | cons a tl =>
      cases tl with
      | nil => rfl
      | cons b rest => rw [h] at hm; simp at hm; omega

/-- Witness for C4: instantiating the amended merge-fallback theorem at
a failed call, at an empty-string response, and at a concrete non-empty
response lacking the delimiter markers. -/
theorem merge_failure_fallbacks_witness :
    update_overall_insight none (some "Steady performance.") =
      ("Steady performance.", "Could not generate update.") ∧
    update_overall_insight (some "") (some "Steady performance.") =
      ("Steady performance.", "Could not generate update.") ∧
    update_overall_insight (some "plain text reply") none =
      ("plain text reply", "Error parsing change summary.") :=
  ⟨merge_failure_fallbacks.1 none "Steady performance." (by decide) (by decide),
   merge_failure_fallbacks.1 (some "") "Steady performance." (by decide) (by decide),
   merge_failure_fallbacks.2 "plain text reply" none (by decide) (by decide)⟩

/-! ## Shared counting lemmas for the city generators -/

/-- The daily-ops generator never decreases the call counter. -/
theorem daily_ops_count_ge (llm : Nat → Option String) (k : Nat)
    (d : List CallRow) :
    k ≤ (generate_city_daily_ops_insight llm k d).2 := by
  unfold generate_city_daily_ops_insight
  split <;> simp

/-- The city monthly generator never decreases the call counter. -/
theorem monthly_count_ge (llm : Nat → Option String) (k : Nat)
    (d : List CallRow) :
    k ≤ (generate_city_monthly_insight llm k d).2 := by
  unfold generate_city_monthly_insight
  split <;> simp

/-- The coaching-focus generator never decreases the call counter. -/
theorem coaching_count_ge (llm : Nat → Option String) (k : Nat)
    (d : List CallRow) :
    k ≤ (generate_city_coaching_focus llm k d).2 := by
  unfold generate_city_coaching_focus
  split
  · simp
  · split <;> simp

/-- Every city regeneration on a healthy session issues at least one
external text-generation call: the overall merge has no zero-data guard. -/
theorem cityRegenerate_calls_pos (now : PyDateTime) (orig : Option CityRow)
    (r : CityRow) (calls : List CallRow) (llm : Nat → Option String) :
    1 ≤ (cityRegenerate now orig r calls (pureEnv llm)).llmCalls := by
  unfold cityRegenerate
  simp only [pureEnv, Bool.not_true, Bool.false_eq_true, if_false]
  split
  · next h =>
    have hc := coaching_count_ge llm
      (update_city_overall_insight llm
        (generate_city_monthly_insight llm
          (generate_city_daily_ops_insight llm 0 (todayWindow now calls)).2
          (monthWindow now calls)).2).2
      (monthWindow now calls)
    unfold update_city_overall_insight at hc ⊢
    omega
  · unfold update_city_overall_insight
    simp

/-! ## Claim C2 -/

/-- Counterexample for C2 as stated: an agent whose staleness clock is
thirty minutes old, whose stored latest month insight is null, and whose
only call is twenty minutes old (outside the ten-minute window) is not
served from cache — the refresh issues two external text-generation
calls. -/
theorem fresh_agent_without_insight_regenerates :
    recentCallsExist ⟨100000, 5, 2026, 99640⟩
      [⟨⟨99980, 5, 2026, 99640⟩, none, some "Coach", none⟩] = false ∧
    (refreshAgent ⟨100000, 5, 2026, 99640⟩
      ⟨none, some "Hist", none, some ⟨99970, 5, 2026, 99640⟩, none⟩
      [⟨⟨99980, 5, 2026, 99640⟩, none, some "Coach", none⟩]
      (fun _ => some "LLM")).llmCalls = 2 := by
  constructor
  · rfl
  · rfl

/-- C2 (amended): a city refresh whose stored row is under one hour old
with no call in the last ten minutes returns the stored narrative fields
unchanged, performs no write, and issues zero external calls; an agent
refresh behaves the same whenever the staleness clock is under one hour
old and the stored latest month insight is non-empty — the agent path
does not consult recent activity, and regenerates when the stored
insight is empty even if fresh. -/
theorem cache_serves_stored_values :
    (∀ (now : PyDateTime) (r : CityRow) (calls : List CallRow)
       (llm : Nat → Option String) (ts : PyDateTime),
      r.last_insight_generated_at = some ts →
      now.t - ts.t < oneHour →
      (∀ c ∈ calls, c.call_timestamp.t < now.t - tenMinutes) →
      refreshCity now (some r) calls llm =
        ⟨true, false, some r, 0, r.daily_ops_insight,
         r.latest_month_insight, r.overall_city_insight,
         r.coaching_focus_for_city⟩) ∧
    (∀ (now : PyDateTime) (agent : AgentRow) (calls : List CallRow)
       (llm : Nat → Option String) (ts : PyDateTime),
      agent.last_insight_generated_at = some ts →
      now.t - ts.t < oneHour →
      truthy agent.latest_month_insight = true →
      refreshAgent now agent calls llm =
        ⟨true, false, agent, 0, agent.latest_month_insight,
         agent.overall_insight_text, agent.latest_change_summary⟩) := by
  constructor
  · intro now r calls llm ts hts h60 hrec
    unfold refreshCity update_single_city_insights
    dsimp only
    have hf : cityFresh now r = true := by
      unfold cityFresh
      rw [hts]
      simpa using h60
    have hr : recentCallsExist now calls = false := by
      unfold recentCallsExist
      rw [Bool.eq_false_iff]
      intro h
      rcases List.any_eq_true.mp h with ⟨c, hc, hdec⟩
      have h1 := hrec c hc
      have h2 := of_decide_eq_true hdec
      omega
    rw [hf, hr]
    rfl
  · intro now agent calls llm ts hts h60 hins
    unfold refreshAgent update_single_agent_insights
    have hg : agentCacheServe now agent = true := by
      unfold agentCacheServe
      rw [hts, hins]
      simpa using h60
    rw [hg]
    rfl

/-- Witness for C2: a city last refreshed ten minutes ago with no calls,
and an agent last refreshed ten minutes ago with a stored insight, are
both served from cache with zero external calls. -/
theorem cache_serves_stored_values_witness :
    refreshCity ⟨200000, 6, 2026, 199000⟩
      (some ⟨some "D", some "M", some "O", some "C",
        some ⟨199990, 6, 2026, 199000⟩, none⟩) [] (fun _ => none) =
      ⟨true, false,
       some ⟨some "D", some "M", some "O", some "C",
        some ⟨199990, 6, 2026, 199000⟩, none⟩,
       0, some "D", some "M", some "O", some "C"⟩ ∧
    refreshAgent ⟨200000, 6, 2026, 199000⟩
      ⟨some "M", some "O", some "S", some ⟨199990, 6, 2026, 199000⟩, none⟩
      [] (fun _ => none) =
      ⟨true, false,
       ⟨some "M", some "O", some "S", some ⟨199990, 6, 2026, 199000⟩, none⟩,
       0, some "M", some "O", some "S"⟩ :=
  ⟨cache_serves_stored_values.1 ⟨200000, 6, 2026, 199000⟩ _ _ _
    ⟨199990, 6, 2026, 199000⟩ rfl (by decide) (by simp),
   cache_serves_stored_values.2 ⟨200000, 6, 2026, 199000⟩ _ _ _
    ⟨199990, 6, 2026, 199000⟩ rfl (by decide) (by decide)⟩

/-! ## Claim C3 -/

/-- Counterexample for C3 as stated: an agent whose staleness clock is
thirty minutes old and whose stored latest month insight is non-empty is
served from cache even though a call arrived two minutes ago — zero
external calls are issued and the row is untouched. -/
theorem recent_activity_ignored_by_agent_cache :
    recentCallsExist ⟨100000, 5, 2026, 99640⟩
      [⟨⟨99998, 5, 2026, 99640⟩, some "B", some "C", none⟩] = true ∧
    (refreshAgent ⟨100000, 5, 2026, 99640⟩
      ⟨some "Old insight", some "Old overall", some "Old change",
       some ⟨99970, 5, 2026, 99640⟩, none⟩
      [⟨⟨99998, 5, 2026, 99640⟩, some "B", some "C", none⟩]
      (fun _ => some "LLM")).llmCalls = 0 ∧
    (refreshAgent ⟨100000, 5, 2026, 99640⟩
      ⟨some "Old insight", some "Old overall", some "Old change",
       some ⟨99970, 5, 2026, 99640⟩, none⟩
      [⟨⟨99998, 5, 2026, 99640⟩, some "B", some "C", none⟩]
      (fun _ => some "LLM")).agent =
      ⟨some "Old insight", some "Old overall", some "Old change",
       some ⟨99970, 5, 2026, 99640⟩, none⟩ := by
  refine ⟨rfl, rfl, rfl⟩

/-- C3 (amended): recent activity forces a refresh only in the city
path: a city row under one hour old with a call inside the ten-minute
window is regenerated with at least one external call; the agent path
ignores recent activity and serves the cache whenever the clock is under
one hour old and the stored latest month insight is non-empty. -/
theorem recent_activity_forces_refresh_only_for_cities :
    (∀ (now : PyDateTime) (r : CityRow) (calls : List CallRow)
       (llm : Nat → Option String) (ts : PyDateTime) (c : CallRow),
      r.last_insight_generated_at = some ts →
      now.t - ts.t < oneHour →
      c ∈ calls →
      now.t - tenMinutes ≤ c.call_timestamp.t →
      1 ≤ (refreshCity now (some r) calls llm).llmCalls) ∧
    (∀ (now : PyDateTime) (agent : AgentRow) (calls : List CallRow)
       (llm : Nat → Option String) (ts : PyDateTime) (c : CallRow),
      agent.last_insight_generated_at = some ts →
      now.t - ts.t < oneHour →
      truthy agent.latest_month_insight = true →
      c ∈ calls →
      now.t - tenMinutes ≤ c.call_timestamp.t →
      (refreshAgent now agent calls llm).llmCalls = 0 ∧
      (refreshAgent now agent calls llm).agent = agent) := by
  constructor
  · intro now r calls llm ts c hts h60 hc hrecent
    unfold refreshCity update_single_city_insights
    dsimp only
    have hr : recentCallsExist now calls = true := by
      unfold recentCallsExist
      exact List.any_eq_true.mpr ⟨c, hc, decide_eq_true hrecent⟩
    rw [hr]
    simp only [Bool.not_true, Bool.and_false, Bool.false_eq_true, if_false]
    exact cityRegenerate_calls_pos now (some r) r calls llm
  · intro now agent calls llm ts c hts h60 hins hc hrecent
    unfold refreshAgent update_single_agent_insights
    have hg : agentCacheServe now agent = true := by
      unfold agentCacheServe
      rw [hts, hins]
      simpa using h60
    rw [hg]
    exact ⟨rfl, rfl⟩

/-- Witness for C3: a concrete city and a concrete agent, each thirty
minutes stale with a call two minutes old; the city issues at least one
external call while the agent issues none and is untouched. -/
theorem recent_activity_forces_refresh_only_for_cities_witness :
    1 ≤ (refreshCity ⟨100000, 5, 2026, 99640⟩
      (some ⟨some "D", some "M", some "O", some "C",
        some ⟨99970, 5, 2026, 99640⟩, none⟩)
      [⟨⟨99998, 5, 2026, 99640⟩, some "B", none, none⟩]
      (fun _ => some "LLM")).llmCalls ∧
    ((refreshAgent ⟨100000, 5, 2026, 99640⟩
      ⟨some "MI", some "OV", some "CS", some ⟨99970, 5, 2026, 99640⟩, none⟩
      [⟨⟨99998, 5, 2026, 99640⟩, some "B", none, none⟩]
      (fun _ => some "LLM")).llmCalls = 0 ∧
     (refreshAgent ⟨100000, 5, 2026, 99640⟩
      ⟨some "MI", some "OV", some "CS", some ⟨99970, 5, 2026, 99640⟩, none⟩
      [⟨⟨99998, 5, 2026, 99640⟩, some "B", none, none⟩]
      (fun _ => some "LLM")).agent =
      ⟨some "MI", some "OV", some "CS", some ⟨99970, 5, 2026, 99640⟩, none⟩) :=
  ⟨recent_activity_forces_refresh_only_for_cities.1
    ⟨100000, 5, 2026, 99640⟩ _ _ _ ⟨99970, 5, 2026, 99640⟩
    ⟨⟨99998, 5, 2026, 99640⟩, some "B", none, none⟩
    rfl (by decide) (by simp) (by decide),
   recent_activity_forces_refresh_only_for_cities.2
    ⟨100000, 5, 2026, 99640⟩ _ _ _ ⟨99970, 5, 2026, 99640⟩
    ⟨⟨99998, 5, 2026, 99640⟩, some "B", none, none⟩
    rfl (by decide) (by decide) (by simp) (by decide)⟩

/-! ## Claim C5 -/

/-- A city regeneration over an empty 30-day window writes the fixed
placeholder texts to the daily-ops and monthly slots without consuming
the oracle, but still issues exactly one external call for the overall
merge and stores its raw response as the overall narrative. -/
theorem cityRegenerate_zero_window (now : PyDateTime) (orig : Option CityRow)
    (r : CityRow) (calls : List CallRow) (llm : Nat → Option String)
    (hwin : monthWindow now calls = []) :
    cityRegenerate now orig r calls (pureEnv llm) =
      ⟨true, false,
       some ⟨some "No calls recorded today for operational analysis.",
             some "No calls recorded in the last 30 days.",
             llm 0,
             (if shouldGenerateCoaching now r then
                some "No sufficient data for coaching analysis."
              else r.coaching_focus_for_city),
             some now, some now⟩,
       1,
       some "No calls recorded today for operational analysis.",
       some "No calls recorded in the last 30 days.",
       llm 0,
       (if shouldGenerateCoaching now r then
          some "No sufficient data for coaching analysis."
        else r.coaching_focus_for_city)⟩ := by
  have htoday : todayWindow now calls = [] := by
    unfold todayWindow
    rw [hwin]
    rfl
  unfold cityRegenerate
  simp only [pureEnv, Bool.not_true, Bool.false_eq_true, if_false]
  rw [htoday, hwin]
  unfold generate_city_daily_ops_insight generate_city_monthly_insight
    update_city_overall_insight generate_city_coaching_focus
  simp only [List.isEmpty_nil, if_true]
  split <;> rfl

/-- Counterexample for C5 as stated: a never-refreshed city with zero
calls in the 30-day window still issues one external text-generation
call, and the overall narrative it persists is the raw oracle response
rather than a deterministic placeholder. -/
theorem zero_activity_city_still_calls_llm :
    (refreshCity ⟨100000, 5, 2026, 99640⟩
      (some ⟨some "D", some "M", some "O", some "C", none, none⟩)
      [] (fun _ => some "RAW")).llmCalls = 1 ∧
    (refreshCity ⟨100000, 5, 2026, 99640⟩
      (some ⟨some "D", some "M", some "O", some "C", none, none⟩)
      [] (fun _ => some "RAW")).dataOverall = some "RAW" := by
  exact ⟨rfl, rfl⟩

/-- C5 (amended): for a city refresh that is not served from cache and
whose 30-day window contains zero call records, the daily-ops and
monthly narratives receive the fixed placeholder texts and only the
overall-merge slot issues an external call — exactly one in total —
whose raw response becomes the overall narrative. -/
theorem zero_activity_city_refresh (now : PyDateTime) (row? : Option CityRow)
    (calls : List CallRow) (llm : Nat → Option String)
    (hwin : monthWindow now calls = [])
    (hfresh : ∀ r, row? = some r → cityFresh now r = false) :
    (refreshCity now row? calls llm).ok = true ∧
    (refreshCity now row? calls llm).dataDaily =
      some "No calls recorded today for operational analysis." ∧
    (refreshCity now row? calls llm).dataMonth =
      some "No calls recorded in the last 30 days." ∧
    (refreshCity now row? calls llm).dataOverall = llm 0 ∧
    (refreshCity now row? calls llm).llmCalls = 1 := by
  cases row? with
  | none =>
    unfold refreshCity update_single_city_insights
    dsimp only
    rw [cityRegenerate_zero_window now none ⟨none, none, none, none, none, none⟩
      calls llm hwin]
    exact ⟨rfl, rfl, rfl, rfl, rfl⟩
  | some r =>
    unfold refreshCity update_single_city_insights
    dsimp only
    rw [hfresh r rfl]
    simp only [Bool.false_and, Bool.false_eq_true, if_false]
    rw [cityRegenerate_zero_window now (some r) r calls llm hwin]
    exact ⟨rfl, rfl, rfl, rfl, rfl⟩

/-- Witness for C5: a concrete stale city with zero calls gets the two
placeholder narratives and exactly one external call for the merge. -/
theorem zero_activity_city_refresh_witness :
    (refreshCity ⟨100000, 5, 2026, 99640⟩
      (some ⟨some "D", some "M", some "O", some "C", none, none⟩)
      [] (fun _ => some "RAW2")).dataDaily =
      some "No calls recorded today for operational analysis." ∧
    (refreshCity ⟨100000, 5, 2026, 99640⟩
      (some ⟨some "D", some "M", some "O", some "C", none, none⟩)
      [] (fun _ => some "RAW2")).llmCalls = 1 :=
  ⟨(zero_activity_city_refresh ⟨100000, 5, 2026, 99640⟩
      (some ⟨some "D", some "M", some "O", some "C", none, none⟩)
      [] (fun _ => some "RAW2") rfl
      (by intro r h; cases h; rfl)).2.1,
   (zero_activity_city_refresh ⟨100000, 5, 2026, 99640⟩
      (some ⟨some "D", some "M", some "O", some "C", none, none⟩)
      [] (fun _ => some "RAW2") rfl
      (by intro r h; cases h; rfl)).2.2.2.2⟩

/-! ## Claim C6 -/

/-- C6: if a city stores a truthy coaching focus and its staleness clock
falls in the current calendar month and year, any refresh — cached or
regenerating — leaves coaching_focus_for_city byte-identical; the gate
regenerates it only when it was never generated or the stored month or
year differs. -/
theorem coaching_focus_stable_within_month (now : PyDateTime) (r : CityRow)
    (calls : List CallRow) (llm : Nat → Option String) (ts : PyDateTime)
    (hcf : truthy r.coaching_focus_for_city = true)
    (hts : r.last_insight_generated_at = some ts)
    (hm : ts.month = now.month) (hy : ts.year = now.year) :
    (refreshCity now (some r) calls llm).ok = true ∧
    ∃ r2, (refreshCity now (some r) calls llm).row = some r2 ∧
      r2.coaching_focus_for_city = r.coaching_focus_for_city := by
  have hsg : shouldGenerateCoaching now r = false := by
    unfold shouldGenerateCoaching
    rw [hts, hcf]
    simp [hm, hy]
  unfold refreshCity update_single_city_insights
  dsimp only
  split
  · exact ⟨rfl, r, rfl, rfl⟩
  · unfold cityRegenerate
    dsimp only
    rw [hsg]
    exact ⟨rfl, _, rfl, rfl⟩

/-- Witness for C6: a city refreshed long ago but inside the current
calendar month regenerates its other narratives while the stored
coaching focus is carried forward unchanged. -/
theorem coaching_focus_stable_within_month_witness :
    (refreshCity ⟨100000, 5, 2026, 99640⟩
      (some ⟨some "D", some "M", some "O", some "Focus",
        some ⟨90000, 5, 2026, 89000⟩, none⟩)
      [] (fun _ => some "X")).ok = true ∧
    ∃ r2, (refreshCity ⟨100000, 5, 2026, 99640⟩
      (some ⟨some "D", some "M", some "O", some "Focus",
        some ⟨90000, 5, 2026, 89000⟩, none⟩)
      [] (fun _ => some "X")).row = some r2 ∧
      r2.coaching_focus_for_city = some "Focus" :=
  coaching_focus_stable_within_month ⟨100000, 5, 2026, 99640⟩
    ⟨some "D", some "M", some "O", some "Focus",
      some ⟨90000, 5, 2026, 89000⟩, none⟩
    [] (fun _ => some "X") ⟨90000, 5, 2026, 89000⟩
    (by decide) rfl rfl rfl

/-! ## Claim C7 -/

/-- C7: whenever an exception is raised (and caught) inside a refresh
body — during the windowed fetch, the generation phase, or the commit —
the operation reports an error envelope and the durable row is exactly
the pre-invocation row: the rollback leaves no partial write, for agents
and for cities alike. -/
theorem refresh_failure_rolls_back (now : PyDateTime) (env : Env) :
    (∀ (agent : AgentRow) (calls : List CallRow),
      (update_single_agent_insights now agent calls env).raised = true →
      (update_single_agent_insights now agent calls env).ok = false ∧
      (update_single_agent_insights now agent calls env).agent = agent) ∧
    (∀ (row? : Option CityRow) (calls : List CallRow),
      (update_single_city_insights now row? calls env).raised = true →
      (update_single_city_insights now row? calls env).ok = false ∧
      (update_single_city_insights now row? calls env).row = row?) := by
  constructor
  · intro agent calls
    unfold update_single_agent_insights
    dsimp only
    split
    · intro h
      simp at h
    · split
      · exact fun _ => ⟨rfl, rfl⟩
      · split
        · split
          · exact fun _ => ⟨rfl, rfl⟩
          · intro h
            simp at h
        · split
          · exact fun _ => ⟨rfl, rfl⟩
          · split
            · exact fun _ => ⟨rfl, rfl⟩
            · intro h
              simp at h
  · intro row? calls
    cases row? with
    | none =>
      unfold update_single_city_insights cityRegenerate
      dsimp only
      split
      · exact fun _ => ⟨rfl, rfl⟩
      · split
        · exact fun _ => ⟨rfl, rfl⟩
        · split
          · exact fun _ => ⟨rfl, rfl⟩
          · intro h
            simp at h
    | some r =>
      unfold update_single_city_insights cityRegenerate
      dsimp only
      split
      · intro h
        simp at h
      · split
        · exact fun _ => ⟨rfl, rfl⟩
        · split
          · exact fun _ => ⟨rfl, rfl⟩
          · split
            · exact fun _ => ⟨rfl, rfl⟩
            · intro h
              simp at h

/-- Witness for C7: an injected fetch failure on a never-refreshed agent
yields an error envelope and leaves the agent row untouched. -/
theorem refresh_failure_rolls_back_witness :
    (update_single_agent_insights ⟨100000, 5, 2026, 99640⟩
      ⟨none, none, none, none, none⟩ []
      ⟨(fun _ => none), false, true, true⟩).ok = false ∧
    (update_single_agent_insights ⟨100000, 5, 2026, 99640⟩
      ⟨none, none, none, none, none⟩ []
      ⟨(fun _ => none), false, true, true⟩).agent =
      ⟨none, none, none, none, none⟩ :=
  (refresh_failure_rolls_back ⟨100000, 5, 2026, 99640⟩
    ⟨(fun _ => none), false, true, true⟩).1
    ⟨none, none, none, none, none⟩ [] rfl

/-! ## Claim C9 -/

/-- A city regeneration on a healthy session always succeeds and commits
a row whose staleness clock is the refresh time. -/
theorem cityRegenerate_pure_ok (now : PyDateTime) (orig : Option CityRow)
    (r : CityRow) (calls : List CallRow) (llm : Nat → Option String) :
    (cityRegenerate now orig r calls (pureEnv llm)).ok = true ∧
    ∃ r2, (cityRegenerate now orig r calls (pureEnv llm)).row = some r2 ∧
      r2.last_insight_generated_at = some now := by
  exact ⟨rfl, _, rfl, rfl⟩

/-- C9: a refresh of a city that has no stored insight row yet does not
fail: the row is created on first use with empty defaults, the cache
gate is skipped, at least one narrative generation call is issued, and
the row is persisted with a fresh staleness clock. -/
theorem first_use_creates_insight_row (now : PyDateTime)
    (calls : List CallRow) (llm : Nat → Option String) :
    (refreshCity now none calls llm).ok = true ∧
    1 ≤ (refreshCity now none calls llm).llmCalls ∧
    ∃ r2, (refreshCity now none calls llm).row = some r2 ∧
      r2.last_insight_generated_at = some now := by
  unfold refreshCity update_single_city_insights
  dsimp only
  exact ⟨(cityRegenerate_pure_ok now none ⟨none, none, none, none, none, none⟩
            calls llm).1,
         cityRegenerate_calls_pos now none ⟨none, none, none, none, none, none⟩
            calls llm,
         (cityRegenerate_pure_ok now none ⟨none, none, none, none, none, none⟩
            calls llm).2⟩

/-! ## Claim C10 -/

/-- Counterexample for C10 as stated: an agent refresh whose 30-day
window has zero call records but whose cache is fresh (clock thirty
minutes old, stored insight non-empty) commits nothing: the latest month
insight keeps its old value instead of receiving the placeholder. -/
theorem zero_record_cached_agent_writes_nothing :
    (refreshAgent ⟨100000, 5, 2026, 99640⟩
      ⟨some "Old insight", some "Old overall", some "Old change",
       some ⟨99980, 5, 2026, 99640⟩, none⟩
      [] (fun _ => some "LLM")).agent.latest_month_insight =
      some "Old insight" ∧
    some "Old insight" ≠ some "No calls recorded for this month." := by
  exact ⟨rfl, by decide⟩

/-- C10 (amended): for every agent refresh whose 30-day window contains
zero call records, the overall insight text and the staleness clock are
left unchanged — the clock is never advanced — and whenever the refresh
is not served from cache it commits the fixed placeholder texts into the
latest month insight and the latest change summary with zero external
calls; a cache-served refresh commits nothing at all. -/
theorem zero_record_agent_refresh (now : PyDateTime) (agent : AgentRow)
    (calls : List CallRow) (llm : Nat → Option String)
    (hwin : monthWindow now calls = []) :
    (refreshAgent now agent calls llm).agent.overall_insight_text =
      agent.overall_insight_text ∧
    (refreshAgent now agent calls llm).agent.last_insight_generated_at =
      agent.last_insight_generated_at ∧
    (agentCacheServe now agent = false →
      (refreshAgent now agent calls llm).ok = true ∧
      (refreshAgent now agent calls llm).llmCalls = 0 ∧
      (refreshAgent now agent calls llm).agent.latest_month_insight =
        some "No calls recorded for this month." ∧
      (refreshAgent now agent calls llm).agent.latest_change_summary =
        some "No activity to analyze.") := by
  unfold refreshAgent update_single_agent_insights
  cases hg : agentCacheServe now agent with
  | true =>
    exact ⟨rfl, rfl, fun h => by simp [hg] at h⟩
  | false =>
    rw [hwin]
    exact ⟨rfl, rfl, fun _ => ⟨rfl, rfl, rfl, rfl⟩⟩

/-- Witness for C10: a never-refreshed agent with no calls in the window
gets the two placeholders committed, keeps its overall insight, does not
advance the staleness clock, and issues zero external calls. -/
theorem zero_record_agent_refresh_witness :
    (refreshAgent ⟨100000, 5, 2026, 99640⟩
      ⟨none, some "OV", none, none, none⟩ [] (fun _ => some "LLM")).agent.overall_insight_text = some "OV" ∧
    (refreshAgent ⟨100000, 5, 2026, 99640⟩
      ⟨none, some "OV", none, none, none⟩ [] (fun _ => some "LLM")).agent.last_insight_generated_at = none ∧
    (refreshAgent ⟨100000, 5, 2026, 99640⟩
      ⟨none, some "OV", none, none, none⟩ [] (fun _ => some "LLM")).llmCalls = 0 ∧
    (refreshAgent ⟨100000, 5, 2026, 99640⟩
      ⟨none, some "OV", none, none, none⟩ [] (fun _ => some "LLM")).agent.latest_month_insight =
      some "No calls recorded for this month." :=
  ⟨(zero_record_agent_refresh ⟨100000, 5, 2026, 99640⟩
      ⟨none, some "OV", none, none, none⟩ [] (fun _ => some "LLM") rfl).1,
   (zero_record_agent_refresh ⟨100000, 5, 2026, 99640⟩
      ⟨none, some "OV", none, none, none⟩ [] (fun _ => some "LLM") rfl).2.1,
   ((zero_record_agent_refresh ⟨100000, 5, 2026, 99640⟩
      ⟨none, some "OV", none, none, none⟩ [] (fun _ => some "LLM") rfl).2.2 rfl).2.1,
   ((zero_record_agent_refresh ⟨100000, 5, 2026, 99640⟩
      ⟨none, some "OV", none, none, none⟩ [] (fun _ => some "LLM") rfl).2.2 rfl).2.2.1⟩
